import Mathlib

/-!
# Verification of the avorioncontrol supervisor core

A shallow embedding, in Lean 4, of the parts of the avorioncontrol game-server
supervisor that its specification makes checkable claims about: the lifecycle
state machine (`Start`/`Stop`/`Restart` and the `RunState` transition flags),
the RCON gateway (`RunCommand`), the game-state store (`NewPlayer`,
`NewAlliance`, `AddJump`, `loadSectors`), the output supervisor's pre-ready
phase, and the bot-bridge message truncation (`SendChat`/`SendLog`).

Pure logic is translated directly from the Go sources; effectful code is
modelled as explicit state passing plus lists of observable effects.  Durations
are natural numbers counting nanoseconds, matching Go's `time.Duration`.
Go strings that are only compared for equality are Lean `String`s; Go strings
that are sliced or prefix-tested (RCON output, bot messages) are `List Char`,
matching Go's bytewise view of ASCII data.
-/

namespace AvorionControl

/-! ## Data model

Mirrors of the Go structs used by the claims.  `ShipCoordData` and `JumpInfo`
carry `{x, y, name, time}` (plus `fid` for `JumpInfo`), exactly the fields the
embedded functions read and write. -/

/-- Mirror of `ifaces.ShipCoordData` as used by `AddJump` / `loadSectors`:
a jump destination with a timestamp (nanoseconds). -/
structure ShipCoordData where
  x : Int
  y : Int
  name : String
  time : Nat
  deriving Repr, DecidableEq

/-- Mirror of `ifaces.JumpInfo`: a jump record stored on a sector, carrying
the faction index `fid` of the jumping player or alliance. -/
structure JumpInfo where
  x : Int
  y : Int
  name : String
  time : Nat
  fid : Int
  deriving Repr, DecidableEq

/-- Mirror of `ifaces.Sector`: a coordinate pair with its ordered jump
history. -/
structure Sector where
  x : Int
  y : Int
  jumphistory : List JumpInfo
  deriving Repr, DecidableEq

/-- Mirror of `avorion.Player` restricted to the fields the embedded
operations touch (`index`, `name`, `jumphistory`). -/
structure Player where
  index : String
  name : String
  jumphistory : List ShipCoordData
  deriving Repr, DecidableEq

/-- Mirror of `avorion.Alliance` restricted to the fields the embedded
operations touch. -/
structure Alliance where
  index : String
  name : String
  jumphistory : List ShipCoordData
  deriving Repr, DecidableEq

/-- The slice of `avorion.Server` game data the store operations act on:
`players`, `alliances`, the sector map (flattened to a list), and the two
cached counters mutated by `NewPlayer` / `UpdatePlayerDatabase`. -/
structure GameState where
  players : List Player
  alliances : List Alliance
  sectors : List Sector
  playercount : Nat
  alliancecount : Nat
  deriving Repr, DecidableEq

/-! ## Bot bridge truncation (`SendChat` / `SendLog`, server.go)

```go
if s.config.ChatPipe() != nil {
    if len(input.Msg) >= 2000 {
        input.Msg = input.Msg[0:1900]
        input.Msg += "...(truncated)"
    }
    select { case s.Config().ChatPipe() <- input: ... }
}
```
`SendLog` is byte-for-byte the same logic on `LogPipe()`.  A message is a
`List Char` (Go indexes the string by byte; the data is ASCII). -/

/-- The literal suffix `...(truncated)` appended by the truncation branch. -/
def truncatedSuffix : List Char := "...(truncated)".toList

/-- The message rewriting applied by `SendChat` before the channel send:
messages of length `>= 2000` are cut to their first 1900 bytes and suffixed
with `...(truncated)`. -/
def sendChatMsg (msg : List Char) : List Char :=
  if 2000 ≤ msg.length then msg.take 1900 ++ truncatedSuffix else msg

/-- The message rewriting applied by `SendLog`; identical to `SendChat`'s. -/
def sendLogMsg (msg : List Char) : List Char :=
  if 2000 ≤ msg.length then msg.take 1900 ++ truncatedSuffix else msg

/-- Model of `SendChat` as a whole: with a nil pipe nothing is sent (`none`); with a
non-nil pipe the (possibly truncated) message is offered to the channel. -/
def sendChat (pipeNonNil : Bool) (msg : List Char) : Option (List Char) :=
  if pipeNonNil then some (sendChatMsg msg) else none

/-- Model of `SendLog` as a whole, analogous to `sendChat`. -/
def sendLog (pipeNonNil : Bool) (msg : List Char) : Option (List Char) :=
  if pipeNonNil then some (sendLogMsg msg) else none

/-! ## RCON gateway (`RunCommand`, server.go)

```go
if s.IsUp() {
    ret, err := exec.CommandContext(ctx, ...).CombinedOutput()
    out := string(ret)
    if err != nil { return "", errors.New("Failed to run the following command: " + c) }
    if strings.HasPrefix(out, "Unknown command: ") {
        return out, errors.New("Invalid command provided")
    }
    return strings.TrimSuffix(out, "\n"), nil
}
return "", errors.New("Server is not online")
```
-/

/-- The error kinds `RunCommand` can return. -/
inductive RCONError where
  /-- Message `"Server is not online"`. -/
  | serverDown : RCONError
  /-- Message `"Failed to run the following command: " + c`. -/
  | execFailed (c : String) : RCONError
  /-- Message `"Invalid command provided"`. -/
  | invalidCommand : RCONError
  deriving Repr, DecidableEq

/-- Outcome of the external RCON client invocation: process failure, or
success with the combined stdout/stderr text. -/
inductive RCONExec where
  | execError (combined : List Char) : RCONExec
  | execOK (combined : List Char) : RCONExec
  deriving Repr, DecidableEq

/-- The literal prefix `Unknown command: ` that marks a server-side
rejection. -/
def unknownCommandMarker : List Char := "Unknown command: ".toList

/-- Model of `strings.TrimSuffix(out, "\n")`: drop one trailing newline if present. -/
def trimSuffixNL (out : List Char) : List Char :=
  if out.getLast? = some '\n' then out.dropLast else out

/-- Model of `RunCommand(c)`, as a function of the server's up-ness and of the result
of the external RCON invocation. -/
def runCommand (isUp : Bool) (c : String) (ex : RCONExec) :
    List Char × Option RCONError :=
  if isUp then
    match ex with
    | .execError _ => ([], some (.execFailed c))
    | .execOK out =>
      if unknownCommandMarker.isPrefixOf out then (out, some .invalidCommand)
      else (trimSuffixNL out, none)
  else ([], some .serverDown)

/-! ## RunState transition flags (server.go)

`RunState` holds `{isrestarting, isstopping, isstarting, iscrashed, last}`
behind a mutex.  The supervisor's lifecycle functions manipulate the three
transition flags in this order:

* `Start`: `state.mutex.Lock(); state.isstarting = true; ...;
  defer { state.isstarting = false; state.mutex.Unlock() }`.
* `Stop`: `state.mutex.Lock(); defer { state.isstopping = false;
  state.mutex.Unlock() }; state.isstopping = true; ...`.
* `Restart` (proceed path): calls `s.Stop(false)` to completion, then sets
  `state.isrestarting = true` (without the mutex), then calls `s.Start(false)`
  to completion, and a deferred function clears `isrestarting` on return.

We model the sequence of flag states a sequential execution passes through.
`statusInt()` reads the flags without taking the mutex, so every intermediate
assignment is observable. -/

/-- The three `RunState` transition flags. -/
structure TransitionFlags where
  isstarting : Bool := false
  isstopping : Bool := false
  isrestarting : Bool := false
  deriving Repr, DecidableEq

/-- The successive flag states observable during a `Start()` call beginning
from flags `f`: `isstarting` is set on entry and cleared by the deferred
function on return. -/
def startFlagStates (f : TransitionFlags) : List TransitionFlags :=
  [{ f with isstarting := true }, { f with isstarting := false }]

/-- The successive flag states observable during a `Stop()` call beginning
from flags `f`. -/
def stopFlagStates (f : TransitionFlags) : List TransitionFlags :=
  [{ f with isstopping := true }, { f with isstopping := false }]

/-- The successive flag states observable during the proceed path of a
`Restart()` call beginning from flags `f`: the embedded `Stop(false)` runs to
completion, then `isrestarting` is set, then the embedded `Start(false)` runs
with `isrestarting` still set, and finally the deferred function clears
`isrestarting`. -/
def restartFlagStates (f : TransitionFlags) : List TransitionFlags :=
  stopFlagStates f ++
    (let f1 := { f with isrestarting := true }
     f1 :: (startFlagStates f1 ++ [{ f1 with isrestarting := false }]))

/-- Exactly-one-or-zero transition flags set: the exclusivity property the
specification asserts for every observable instant. -/
def atMostOneFlag (f : TransitionFlags) : Bool :=
  !(f.isstarting && f.isstopping) && !(f.isstarting && f.isrestarting) &&
    !(f.isstopping && f.isrestarting)

/-! ## Restart debounce (`Restart()`, server.go)

```go
// We don't want to restart if the server was started in the last 10 seconds
if time.Now().Sub(state.last) > 10 {
    if state.isrestarting || state.isstarting { return nil }
    if err := s.Stop(false); err != nil { logger.LogError(s, err.Error()) }
    defer func() { state.isrestarting = false }()
    state.isrestarting = true
    if err := s.Start(false); err != nil { ...; return err }
    return nil
}
logger.LogInfo(s, "Server was just started, skipping reboot attempt")
return errors.New("Server was just restarted")
```

`time.Now().Sub(state.last)` is a `time.Duration`, i.e. a count of
**nanoseconds**; the untyped constant `10` it is compared against is therefore
10 ns, not 10 s.  We count time in nanoseconds. -/

/-- One nanosecond-count per second (`time.Second`). -/
def nsPerSecond : Nat := 1000000000

/-- The debounce threshold `Restart()` actually compares against: the bare
constant `10` of the source, i.e. 10 nanoseconds. -/
def restartThresholdNs : Nat := 10

/-- The three ways `Restart()` can return without considering the outcome of
the embedded `Stop`/`Start`. -/
inductive RestartDecision where
  /-- Another restart/start is in flight; `Restart` returns `nil` untouched. -/
  | nilBusy : RestartDecision
  /-- Outcome where `Restart` proceeds: `Stop(false)` then `Start(false)`. -/
  | proceed : RestartDecision
  /-- Outcome where `Restart` refuses with `errors.New("Server was just restarted")`
  (`ErrTooSoon`). -/
  | tooSoon : RestartDecision
  deriving Repr, DecidableEq

/-- The decision logic at the top of `Restart()`, as a function of the current
monotonic time, the recorded `state.last`, and the two flags it reads
(both times in nanoseconds). -/
def restartDecision (now last : Nat) (isrestarting isstarting : Bool) :
    RestartDecision :=
  if restartThresholdNs < now - last then
    if isrestarting || isstarting then .nilBusy else .proceed
  else .tooSoon

/-! ## Stop (`Stop()`, server.go)

```go
state.mutex.Lock()
defer func() { state.isstopping = false; state.mutex.Unlock() }()
state.isstopping = true

if s.IsUp() != true {
    logger.LogOutput(s, "Server is already offline")
    return nil
}
...
go func() { _, err := s.RunCommand("save"); if err == nil { s.RunCommand("stop"); return }; ... }()
s.onlineplayercount = 0
stopt := time.After(5 * time.Minute)
select {
case <-stopt:
    state.iscrashed = true
    s.Cmd.Process.Kill()
    <-s.close
    return errors.New("Avorion took too long to exit and had to be killed")
case <-s.close:
    return nil
}
```
-/

/-- How the wait at the end of `Stop()` resolves when the server was up:
either the `close` channel closes in time or the five-minute deadline
expires. -/
inductive StopWait where
  | closed : StopWait
  | deadline : StopWait
  deriving Repr, DecidableEq

/-- The observable outcome of one `Stop()` call. -/
structure StopOutcome where
  /-- Error message returned, `none` for `nil`. -/
  err : Option String
  /-- RCON commands issued by the detached save/stop goroutine. -/
  rconCmds : List String
  /-- Whether `s.Cmd.Process.Kill()` was invoked. -/
  killedChild : Bool
  /-- Whether `state.iscrashed` was set by this call. -/
  setCrashed : Bool
  /-- Whether `s.onlineplayercount` was zeroed by this call. -/
  zeroedOnlineCount : Bool
  /-- Flag states passed through, in order. -/
  flagStates : List TransitionFlags
  deriving Repr, DecidableEq

/-- Model of `Stop()` as a function of the starting flags, of `IsUp()`, and of how the
final wait resolves (irrelevant when the server is down, since `Stop` returns
before reaching it).  `saveFailed` tells whether the detached goroutine's
`save` command errored (in which case `stop` is not issued). -/
def stopModel (f : TransitionFlags) (isUp : Bool) (saveFailed : Bool)
    (w : StopWait) : StopOutcome :=
  let f1 := { f with isstopping := true }
  let f2 := { f1 with isstopping := false }
  if !isUp then
    { err := none, rconCmds := [], killedChild := false, setCrashed := false
      zeroedOnlineCount := false, flagStates := [f1, f2] }
  else
    let cmds := if saveFailed then ["save"] else ["save", "stop"]
    match w with
    | .deadline =>
      { err := some "Avorion took too long to exit and had to be killed"
        rconCmds := cmds, killedChild := true, setCrashed := true
        zeroedOnlineCount := true, flagStates := [f1, f2] }
    | .closed =>
      { err := none, rconCmds := cmds, killedChild := false
        setCrashed := false, zeroedOnlineCount := true
        flagStates := [f1, f2] }

/-! ## The Start() rendezvous (server.go)

After spawning the child and its supervisors, `Start` blocks on:

```go
select {
case <-ready:
    state.iscrashed = false
    s.config.LoadGameConfig()
    go func() { <-time.After(time.Second * 90); s.UpdatePlayerDatabase(false) }()
    s.loadSectors()
    if upstring := ...; upstring != "" { go func() { ... PostUp ... }() }
    state.last = time.Now()
    return nil
case <-s.close:
    close(ready)
    state.isstarting = false
    return errors.New("avorion initialization failed")
case <-time.After(5 * time.Minute):
    close(ready)
    s.Cmd.Process.Kill()
    return errors.New("avorion took over 5 minutes to start")
}
```
-/

/-- Which arm of the final `select` in `Start()` fires first. -/
inductive StartRendezvous where
  /-- The `ready` channel was closed by the output supervisor. -/
  | ready : StartRendezvous
  /-- The per-run `close` channel was closed (child exited during init). -/
  | closed : StartRendezvous
  /-- Neither happened within `5 * time.Minute`. -/
  | timeout : StartRendezvous
  deriving Repr, DecidableEq

/-- The timeout of the `Start()` rendezvous, `5 * time.Minute`, in
nanoseconds. -/
def startRendezvousTimeoutNs : Nat := 5 * 60 * nsPerSecond

/-- Observable outcome of the `Start()` rendezvous. -/
structure StartOutcome where
  /-- Error message returned by `Start`, `none` for `nil`. -/
  err : Option String
  /-- Whether `state.iscrashed` was cleared (`= false`). -/
  clearedCrashed : Bool
  /-- Whether `state.last` was set to the current time. -/
  recordedLast : Bool
  /-- Delay, in seconds, of the scheduled first `UpdatePlayerDatabase(false)`
  refresh (`none` if no refresh was scheduled). -/
  refreshDelaySecs : Option Nat
  /-- Whether `s.loadSectors()` was invoked. -/
  loadedSectors : Bool
  /-- Whether `s.Cmd.Process.Kill()` was invoked. -/
  killedChild : Bool
  /-- The `ready` channel was closed by this arm. -/
  closedReady : Bool
  deriving Repr, DecidableEq

/-- The `Start()` rendezvous select, arm by arm. -/
def startRendezvous : StartRendezvous → StartOutcome
  | .ready =>
    { err := none, clearedCrashed := true, recordedLast := true
      refreshDelaySecs := some 90, loadedSectors := true
      killedChild := false, closedReady := false }
  | .closed =>
    { err := some "avorion initialization failed", clearedCrashed := false
      recordedLast := false, refreshDelaySecs := none, loadedSectors := false
      killedChild := false, closedReady := true }
  | .timeout =>
    { err := some "avorion took over 5 minutes to start"
      clearedCrashed := false, recordedLast := false
      refreshDelaySecs := none, loadedSectors := false
      killedChild := true, closedReady := true }

/-! ## Integer parsing (`strconv.Atoi`)

`NewPlayer`/`NewAlliance` validate their index argument with
`strconv.Atoi(index)`.  `Atoi` accepts an optional sign followed by at least
one decimal digit, and fails (`ErrRange`) when the value does not fit in a
signed 64-bit integer. -/

/-- Value of a non-empty all-digit run, `none` otherwise. -/
def digitsToNat (ds : List Char) : Option Nat :=
  if ds ≠ [] ∧ ds.all Char.isDigit then
    some (ds.foldl (fun n c => 10 * n + (c.toNat - '0'.toNat)) 0)
  else none

/-- Constant `2^63 - 1`, the largest signed 64-bit integer. -/
def maxInt64 : Nat := 9223372036854775807

/-- Model of `strconv.Atoi`: optional `+`/`-` sign, then decimal digits, rejecting
values outside the signed 64-bit range. -/
def atoi (s : String) : Option Int :=
  match s.toList with
  | [] => none
  | c :: cs =>
    if c = '+' then
      (digitsToNat cs).bind fun n =>
        if n ≤ maxInt64 then some (n : Int) else none
    else if c = '-' then
      (digitsToNat cs).bind fun n =>
        if n ≤ maxInt64 + 1 then some (-(n : Int)) else none
    else
      (digitsToNat (c :: cs)).bind fun n =>
        if n ≤ maxInt64 then some (n : Int) else none

/-! ## Store lookups (`Player`, `Alliance`, server.go)

`s.Player(plrstr)` and `s.Alliance(index)` walk the respective slice and
return the first entry whose `Index()` equals the argument, or `nil`. -/

/-- Lookup `s.Player(idx)`: first player with the given index, if any. -/
def findPlayer (st : GameState) (idx : String) : Option Player :=
  st.players.find? (fun p => p.index == idx)

/-- Lookup `s.Alliance(idx)`: first alliance with the given index, if any. -/
def findAlliance (st : GameState) (idx : String) : Option Alliance :=
  st.alliances.find? (fun a => a.index == idx)

/-! ## NewPlayer / NewAlliance (server.go)

```go
func (s *Server) NewPlayer(index string, d []string) ifaces.IPlayer {
    if _, err := strconv.Atoi(index); err != nil {
        logger.LogError(s, "player: "+sprintf(errBadIndex, index))
        s.Stop(true)
        os.Exit(1)
    }
    cmd := sprintf(rconGetPlayerData, index)
    if len(d) < 15 {
        if data, err := s.RunCommand(cmd); err != nil {
            logger.LogError(s, sprintf(errFailedRCON, err.Error()))
        } else {
            if d = rePlayerData.FindStringSubmatch(data); d == nil {
                logger.LogError(...); s.Stop(true); <-s.close
                panic("Failed to parse data string")
            }
        }
    }
    p := &Player{index: index, name: d[14], ...}
    var darr [15]string
    copy(darr[:], d)
    p.UpdateFromData(darr)
    s.players = append(s.players, p)
    ...
    s.playercount++
    return p
}
```

`NewAlliance` is analogous with a `< 13` length guard and `d[12]` for the
name, except that (a) its refetch guard `if d = rePlayerData.FindStringSubmatch(data); d != nil`
panics when the match *succeeds* and silently continues with `d = nil` when it
fails, and (b) it checks `s.Alliance(index)` for a duplicate before appending
(`NewPlayer` has no such check).

The RCON refetch is folded into a `FetchResult` argument describing the joint
outcome of `s.RunCommand(...)` and `rePlayerData.FindStringSubmatch` on its
output (the regexp itself lives in the player source file, which only this
composite outcome depends on).  `p.UpdateFromData(darr)` rewrites player
fields from the matched groups; our `Player` mirror keeps only the fields the
claims mention, whose values (`index`, `name = d[14]`, empty `jumphistory`)
are fixed by the constructor literal shown above. -/

/-- Joint outcome of the RCON refetch performed when the supplied data slice
is too short: the RCON call failed, or it succeeded and the per-line regexp
did not match, or it succeeded and matched `m`. -/
inductive FetchResult where
  | rconError : FetchResult
  | noMatch : FetchResult
  | matched (m : List String) : FetchResult
  deriving Repr, DecidableEq

/-- How a store registration call returns. -/
inductive StoreOpResult where
  /-- Outcome `s.Stop(true); os.Exit(1)`: the process terminates. -/
  | fatalExit : StoreOpResult
  /-- a Go `panic` — either the explicit one after a failed data refetch or
  the runtime index-out-of-range on `d[14]`/`d[12]`. -/
  | panicked : StoreOpResult
  /-- normal return with the updated store. -/
  | ok (st : GameState) : StoreOpResult
  deriving Repr, DecidableEq

/-- The final section of `NewPlayer`: build the `Player` literal from `d` and
append it unconditionally, bumping `playercount`. -/
def newPlayerAppend (st : GameState) (index : String) (d : List String) :
    StoreOpResult :=
  match d.get? 14 with
  | none => .panicked
  | some nm =>
    .ok { st with
          players := st.players ++ [{ index := index, name := nm, jumphistory := [] }]
          playercount := st.playercount + 1 }

/-- Model of `NewPlayer(index, d)` with refetch outcome `fetch` (consulted only when
`len(d) < 15`). -/
def newPlayer (st : GameState) (index : String) (d : List String)
    (fetch : FetchResult) : StoreOpResult :=
  if (atoi index).isNone then .fatalExit
  else
    match (if d.length < 15 then fetch else .matched d) with
    | .noMatch => .panicked
    | .rconError => newPlayerAppend st index d
    | .matched d2 => newPlayerAppend st index d2

/-- Model of `NewAlliance(index, d)` with refetch outcome `fetch` (consulted only when
`len(d) < 13`). -/
def newAlliance (st : GameState) (index : String) (d : List String)
    (fetch : FetchResult) : StoreOpResult :=
  if (atoi index).isNone then .fatalExit
  else
    let step : Option (List String) :=
      if d.length < 13 then
        match fetch with
        | .rconError => some d
        | .noMatch => some []
        | .matched _ => none
      else some d
    match step with
    | none => .panicked
    | some d2 =>
      if (findAlliance st index).isSome then .ok st
      else
        match d2.get? 12 with
        | none => .panicked
        | some nm =>
          .ok { st with
                alliances := st.alliances ++ [{ index := index, name := nm, jumphistory := [] }] }

/-! ## Jump histories (`AddJump`, alliance.go; `loadSectors`, server.go)

```go
func (a *Alliance) AddJump(sc ifaces.ShipCoordData) {
    sc.Time = time.Now()
    a.jumphistory = append(a.jumphistory, sc)
    if len(a.jumphistory) > 1000 {
        a.jumphistory = a.jumphistory[1:]
    }
}
```

The player source file is not among the provided sources; per the
specification, `Player.AddJump` gives players the same bounded history as
alliances, so the one function below serves both. -/

/-- Model of `AddJump`: stamp the record with the current time, append it, and drop
the front entry if the history now exceeds 1000 entries. -/
def addJump (hist : List ShipCoordData) (sc : ShipCoordData) (now : Nat) :
    List ShipCoordData :=
  let h := hist ++ [{ sc with time := now }]
  if 1000 < h.length then h.drop 1 else h

/-- Model of `strconv.FormatInt(int64(fid), 10)`; Lean's `Int` printing produces the
same decimal form, minus sign included. -/
def fidString (fid : Int) : String := toString fid

/-- The jump records of `sectors` belonging to faction `idx`, in the order the
`loadSectors` nest visits them (sectors outer, per-sector history inner). -/
def sectorJumpsFor (idx : String) (sectors : List Sector) :
    List ShipCoordData :=
  sectors.flatMap fun sec =>
    sec.jumphistory.filterMap fun j =>
      if fidString j.fid == idx then
        some { x := j.x, y := j.y, name := j.name, time := j.time }
      else none

/-- Insert a record into a time-sorted list, keeping it sorted. -/
def insertByTime (sc : ShipCoordData) : List ShipCoordData → List ShipCoordData
  | [] => [sc]
  | x :: xs => if sc.time ≤ x.time then sc :: x :: xs else x :: insertByTime sc xs

/-- Modelled from the spec: `sort.Sort(jumpsByTime(...))` — the `jumpsByTime`
ordering lives in the player source file, which is not among the provided
sources; the spec states that histories are sorted by time on load.
(Insertion sort; `sort.Sort` is an unstable comparison sort, and no claim
depends on the order of equal timestamps.) -/
def sortByTime (l : List ShipCoordData) : List ShipCoordData :=
  l.foldr insertByTime []

/-- The effect of `loadSectors` on one player: every sector jump record whose
`FID` prints to the player's index is appended, then the whole history is
sorted by time. -/
def loadSectorsPlayer (sectors : List Sector) (p : Player) : Player :=
  { p with jumphistory := sortByTime (p.jumphistory ++ sectorJumpsFor p.index sectors) }

/-- The effect of `loadSectors` on one alliance. -/
def loadSectorsAlliance (sectors : List Sector) (a : Alliance) : Alliance :=
  { a with jumphistory := sortByTime (a.jumphistory ++ sectorJumpsFor a.index sectors) }

/-- Model of `s.loadSectors()`: fold the sector histories into every player's and
alliance's jump history, then sort each history by time. -/
def loadSectors (st : GameState) : GameState :=
  { st with
    players := st.players.map (loadSectorsPlayer st.sectors)
    alliances := st.alliances.map (loadSectorsAlliance st.sectors) }

/-! ## Output supervisor (`superviseAvorionOut`, goroutines.go)

```go
for scanner.Scan() {
    out := scanner.Text()
    select {
    case <-closech:
        return
    case <-ready:
        e := events.GetFromString(out)
        if e == nil { logger.LogOutput(s, out); continue }
        e.Handler(s, e, out, nil)
    default:
        switch out {
        case "Server startup complete.":
            logger.LogInit(s, "Avorion server initialization completed")
            close(ready)
        case "Server startup FAILED.":
            logger.LogError(s, "Server startup FAILED.")
            s.Crashed()
        default:
            e := events.GetFromString(out)
            if e == nil { continue }
            e.Handler(s, e, out, nil)
        }
    }
}
```
-/

/-- A registered event: a name and its compiled pattern, abstracted to the
line predicate the pattern decides. -/
structure GameEvent where
  name : String
  matchLine : String → Bool

/-- Modelled from the spec: `events.GetFromString` (the events package source
is not among the provided sources).  Per the spec, lookup walks the registry
in insertion order and returns the first event whose pattern matches the
line; `EventNone`, with pattern `.*`, is registered last as the default. -/
def getFromString (registry : List GameEvent) (line : String) : Option GameEvent :=
  registry.find? (fun e => e.matchLine line)

/-- Default `EventNone`: pattern `.*`, matches every line.  Its handler logs the line
as plain server output (`logger.LogOutput`); see `InitializeEvents` in
server.go. -/
def eventNone : GameEvent := { name := "EventNone", matchLine := fun _ => true }

/-- Observable effects of one iteration of the output supervisor. -/
inductive OutEffect where
  /-- Effect `logger.LogInit(s, m)` — an INIT-level log event. -/
  | logInit (m : String) : OutEffect
  /-- Effect `logger.LogError(s, m)`. -/
  | logError (m : String) : OutEffect
  /-- Effect `logger.LogOutput(s, m)` — plain server output. -/
  | logOutput (m : String) : OutEffect
  /-- Effect `close(ready)`. -/
  | closeReady : OutEffect
  /-- Effect `s.Crashed()`. -/
  | setCrashed : OutEffect
  /-- Effect `e.Handler(s, e, out, nil)` for the named event. -/
  | dispatch (name : String) : OutEffect
  deriving Repr, DecidableEq

/-- Whether an effect list emits an INIT-level log event. -/
def emitsInitLog (effs : List OutEffect) : Bool :=
  effs.any fun e => match e with | .logInit _ => true | _ => false

/-- One scanned line of `superviseAvorionOut`, given whether the `ready`
channel is already closed.  Returns the emitted effects and the new
readiness (the `ready` channel, once closed, stays closed, making the
`case <-ready` arm win every later select). -/
def superviseLine (registry : List GameEvent) (ready : Bool) (out : String) :
    List OutEffect × Bool :=
  if ready then
    match getFromString registry out with
    | none => ([.logOutput out], true)
    | some e => ([.dispatch e.name], true)
  else
    if out = "Server startup complete." then
      ([.logInit "Avorion server initialization completed", .closeReady], true)
    else if out = "Server startup FAILED." then
      ([.logError "Server startup FAILED.", .setCrashed], false)
    else
      match getFromString registry out with
      | none => ([], false)
      | some e => ([.dispatch e.name], false)

/-- A whole scanner run (no close request): fold `superviseLine` over the
lines the child produced. -/
def superviseRun (registry : List GameEvent) : Bool → List String → List OutEffect
  | _, [] => []
  | ready, out :: rest =>
    (superviseLine registry ready out).1 ++
      superviseRun registry (superviseLine registry ready out).2 rest

/-! ## Auxiliary observation functions and concrete states -/

/-- Number of `close(ready)` effects in an effect list. -/
def closeReadyCount (effs : List OutEffect) : Nat :=
  (effs.filter (fun e => e == OutEffect.closeReady)).length

/-- Number of players in the store carrying a given index. -/
def playersWithIndex (st : GameState) (idx : String) : Nat :=
  (st.players.filter (fun p => p.index == idx)).length

/-- The jump-history lengths of all alliances in the store. -/
def allianceHistLengths (st : GameState) : List Nat :=
  st.alliances.map (fun a => a.jumphistory.length)

/-- The empty game store. -/
def emptyState : GameState :=
  { players := [], alliances := [], sectors := [], playercount := 0
    alliancecount := 0 }

/-- A store that already holds a player with index `"1"`. -/
def dupState : GameState :=
  { players := [{ index := "1", name := "Alice", jumphistory := [] }]
    alliances := [], sectors := [], playercount := 1, alliancecount := 0 }

/-- A 15-field data slice (as produced by a `rePlayerData` match) whose name
field `d[14]` is `"Bob"`. -/
def dupData : List String :=
  ["m", "1", "a", "b", "c", "d", "e", "f", "g", "h", "i", "j", "k", "l", "Bob"]

/-- The store `dupState` after the duplicate `NewPlayer("1", dupData)` call:
a second player with index `"1"` has been appended and `playercount`
bumped. -/
def dupStateAfter : GameState :=
  { players := [{ index := "1", name := "Alice", jumphistory := [] },
                { index := "1", name := "Bob", jumphistory := [] }]
    alliances := [], sectors := [], playercount := 2, alliancecount := 0 }

/-- A sector jump record by faction `7` with timestamp `i`. -/
def overflowJump (i : Nat) : JumpInfo :=
  { x := 0, y := 0, name := "S", time := i, fid := 7 }

/-- A sector whose history holds 1001 jump records of faction `7`. -/
def overflowSector : Sector :=
  { x := 0, y := 0, jumphistory := (List.range 1001).map overflowJump }

/-- Alliance `7` with an empty jump history. -/
def overflowAlliance : Alliance :=
  { index := "7", name := "A", jumphistory := [] }

/-- A rehydrated store holding `overflowSector` and `overflowAlliance`, as it
stands when `Start()` reaches `s.loadSectors()`. -/
def overflowState : GameState :=
  { players := [], alliances := [overflowAlliance], sectors := [overflowSector]
    playercount := 0, alliancecount := 1 }

/-- A full (1000-entry) jump history. -/
def fullHist : List ShipCoordData :=
  List.replicate 1000 { x := 0, y := 0, name := "W", time := 0 }

/-- A fresh jump record to add to `fullHist`. -/
def freshJump : ShipCoordData := { x := 1, y := 2, name := "New", time := 0 }

end AvorionControl

namespace AvorionControl

/-! ## Helper lemmas -/

/-- Inserting into a list grows its length by one. -/
theorem length_insertByTime (sc : ShipCoordData) (l : List ShipCoordData) :
    (insertByTime sc l).length = l.length + 1 := by
  induction l with
  | nil => rfl
  | cons x xs ih =>
    rw [insertByTime]
    by_cases h : sc.time ≤ x.time
    · rw [if_pos h, List.length_cons]
    · rw [if_neg h, List.length_cons, List.length_cons, ih]

/-- Sorting preserves length. -/
theorem length_sortByTime (l : List ShipCoordData) :
    (sortByTime l).length = l.length := by
  induction l with
  | nil => rfl
  | cons x xs ih =>
    show (insertByTime x (List.foldr insertByTime [] xs)).length = xs.length + 1
    rw [length_insertByTime]
    exact congrArg (· + 1) ih

/-- Mapping `filterMap` over a list on which the function never returns `none`
preserves length. -/
theorem length_filterMap_of_isSome {α β : Type} (f : α → Option β)
    (l : List α) (h : ∀ a ∈ l, (f a).isSome = true) :
    (l.filterMap f).length = l.length := by
  induction l with
  | nil => rfl
  | cons x xs ih =>
    rw [List.filterMap_cons]
    have hx := h x (List.mem_cons_self x xs)
    cases hfx : f x with
    | none => rw [hfx] at hx; simp at hx
    | some b =>
      rw [List.length_cons, List.length_cons,
        ih (fun a ha => h a (List.mem_cons_of_mem _ ha))]

/-- Count `closeReadyCount` distributes over append. -/
theorem closeReadyCount_append (a b : List OutEffect) :
    closeReadyCount (a ++ b) = closeReadyCount a + closeReadyCount b := by
  rw [closeReadyCount, closeReadyCount, closeReadyCount, List.filter_append,
    List.length_append]

/-- Once the `ready` channel is closed, a scanned line never closes it again
and readiness persists. -/
theorem superviseLine_ready (reg : List GameEvent) (out : String) :
    (superviseLine reg true out).2 = true ∧
      closeReadyCount (superviseLine reg true out).1 = 0 := by
  rw [superviseLine]
  cases h : getFromString reg out <;> simp [closeReadyCount]

/-- A run that starts with `ready` closed never closes it. -/
theorem superviseRun_ready (reg : List GameEvent) (lines : List String) :
    closeReadyCount (superviseRun reg true lines) = 0 := by
  induction lines with
  | nil => rfl
  | cons out rest ih =>
    rw [superviseRun, closeReadyCount_append, (superviseLine_ready reg out).2,
      (superviseLine_ready reg out).1, ih]

/-- Over any scanner run, the `ready` channel is closed at most once. -/
theorem superviseRun_closeReady_le_one (reg : List GameEvent)
    (lines : List String) :
    ∀ ready, closeReadyCount (superviseRun reg ready lines) ≤ 1 := by
  induction lines with
  | nil =>
    intro ready
    rw [show superviseRun reg ready [] = [] from rfl]
    exact Nat.zero_le 1
  | cons out rest ih =>
    intro ready
    rw [superviseRun, closeReadyCount_append]
    cases ready with
    | true =>
      rw [(superviseLine_ready reg out).2, (superviseLine_ready reg out).1,
        superviseRun_ready]
      exact Nat.zero_le 1
    | false =>
      by_cases h1 : out = "Server startup complete."
      · have hline : superviseLine reg false out =
            ([.logInit "Avorion server initialization completed",
              .closeReady], true) := by
          rw [superviseLine, if_neg (by simp), h1, if_pos rfl]
        rw [hline]
        have : closeReadyCount
            [OutEffect.logInit "Avorion server initialization completed",
             OutEffect.closeReady] = 1 := rfl
        rw [this, superviseRun_ready]
      · by_cases h2 : out = "Server startup FAILED."
        · have hline : superviseLine reg false out =
              ([.logError "Server startup FAILED.", .setCrashed], false) := by
            rw [superviseLine, if_neg (by simp), if_neg h1, h2, if_pos rfl]
          rw [hline]
          have : closeReadyCount
              [OutEffect.logError "Server startup FAILED.",
               OutEffect.setCrashed] = 0 := rfl
          rw [this]
          exact Nat.le_trans (Nat.le_of_eq (Nat.zero_add _)) (ih false)
        · rw [superviseLine, if_neg (by simp), if_neg h1, if_neg h2]
          cases h3 : getFromString reg out with
          | none =>
            have : closeReadyCount ([] : List OutEffect) = 0 := rfl
            rw [this]
            exact Nat.le_trans (Nat.le_of_eq (Nat.zero_add _)) (ih false)
          | some e =>
            have : closeReadyCount [OutEffect.dispatch e.name] = 0 := rfl
            rw [this]
            exact Nat.le_trans (Nat.le_of_eq (Nat.zero_add _)) (ih false)

end AvorionControl

namespace AvorionControl

/-! ## Claim theorems -/

/-- C1: evaluation of `Restart()`'s debounce at the failing input.  The claim
(and the source's own comment) requires a `Restart()` issued less than 10
seconds after the last successful start to refuse with `ErrTooSoon`; but the
source compares `time.Now().Sub(state.last)` — a nanosecond count — against
the bare constant `10`, so a call 5 seconds (5 000 000 000 ns) after the last
start proceeds with Stop-then-Start.  The refusal window is in fact 10
nanoseconds (elapsed 10 ns refuses, 11 ns proceeds), and a call that finds
another start or restart in flight returns `nil`, not `ErrTooSoon`. -/
theorem restart_debounce_ten_nanoseconds :
    restartDecision (5 * nsPerSecond) 0 false false = .proceed ∧
    restartDecision 10 0 false false = .tooSoon ∧
    restartDecision 11 0 false false = .proceed ∧
    restartDecision (5 * nsPerSecond) 0 true false = .nilBusy := by
  decide

/-- C2 counterexample: the claim that at no observable instant two of
`{isstarting, isstopping, isrestarting}` are true fails on the proceed path
of `Restart()`: after its embedded `Stop(false)` returns, `Restart` sets
`isrestarting` and then calls `Start(false)`, which sets `isstarting` while
`isrestarting` is still held, so the trace contains a state with both flags
true. -/
theorem restart_flag_overlap_counterexample :
    (restartFlagStates {}).all atMostOneFlag = false := by decide

/-- C2 (amended): `isstopping` never overlaps another transition flag, and
the `Start()` / `Stop()` traces on their own keep at most one flag set; but
during the `Start` phase of a `Restart`, `isstarting` and `isrestarting` are
simultaneously true (`isrestarting` is deliberately held across the embedded
`Start`). -/
theorem transition_flags_amended :
    ((startFlagStates {} ++ stopFlagStates {} ++ restartFlagStates {}).all
      (fun f => !(f.isstarting && f.isstopping) &&
        !(f.isstopping && f.isrestarting))) = true ∧
    ((startFlagStates {} ++ stopFlagStates {}).all atMostOneFlag) = true ∧
    ({ isstarting := true, isrestarting := true : TransitionFlags }
      ∈ restartFlagStates {}) := by
  decide

/-- C3: evaluation of `NewPlayer` at the failing input.  With a player of
index `"1"` already in the store, `NewPlayer("1", dupData)` is not a silent
no-op: the body has no presence check (unlike `NewAlliance`), so it appends a
second player with index `"1"` and increments `playercount`, contradicting
both the claim and `NewPlayer`'s own doc comment ("adds a new player to the
list of players if it isn't already present"). -/
theorem newPlayer_duplicate_append_bug :
    playersWithIndex dupState "1" = 1 ∧
    newPlayer dupState "1" dupData .rconError = .ok dupStateAfter ∧
    playersWithIndex dupStateAfter "1" = 2 ∧
    dupStateAfter.playercount = 2 := by
  decide

/-- C9: the `Start()` rendezvous has exactly the three claimed outcomes.
If `ready` closes first, `Start` clears the crashed flag, schedules the first
`UpdatePlayerDatabase` refresh 90 seconds out, loads the sector jump
histories, records the start time, and returns `nil` without touching the
child.  If `close` closes first, it returns the initialization-failure error.
If neither happens within `5 * time.Minute`, it kills the child and returns
the start-timeout error. -/
theorem start_rendezvous_three_outcomes :
    ((startRendezvous .ready).err = none ∧
      (startRendezvous .ready).clearedCrashed = true ∧
      (startRendezvous .ready).recordedLast = true ∧
      (startRendezvous .ready).refreshDelaySecs = some 90 ∧
      (startRendezvous .ready).loadedSectors = true ∧
      (startRendezvous .ready).killedChild = false) ∧
    ((startRendezvous .closed).err = some "avorion initialization failed" ∧
      (startRendezvous .closed).killedChild = false ∧
      (startRendezvous .closed).loadedSectors = false) ∧
    ((startRendezvous .timeout).err =
        some "avorion took over 5 minutes to start" ∧
      (startRendezvous .timeout).killedChild = true ∧
      (startRendezvous .timeout).loadedSectors = false) ∧
    startRendezvousTimeoutNs = 5 * 60 * nsPerSecond := by
  decide

/-- C10: `Stop(announce)` called while the child is down returns `nil`,
issues no RCON commands, never kills or marks crashed, leaves
`onlineplayercount` untouched, and its only state change is setting
`isstopping` on entry and clearing it again before returning — for any
starting flags and any resolution of the (unreached) shutdown wait. -/
theorem stop_offline_noop (f : TransitionFlags) (saveFailed : Bool)
    (w : StopWait) :
    stopModel f false saveFailed w =
      { err := none, rconCmds := [], killedChild := false, setCrashed := false
        zeroedOnlineCount := false
        flagStates := [{ f with isstopping := true },
                       { f with isstopping := false }] } := by
  rfl

end AvorionControl

namespace AvorionControl

/-- C5: `RunCommand` returns the server-down error with empty output whenever
the child is not up (whatever the external invocation would have produced);
when the child is up and the external RCON invocation succeeds with output
beginning with `Unknown command: `, it returns the invalid-command error with
the original output preserved; and in all other successful cases it returns
the output with one trailing newline trimmed and no error. -/
theorem runCommand_error_spec :
    (∀ c ex, runCommand false c ex = ([], some .serverDown)) ∧
    (∀ c out, unknownCommandMarker.isPrefixOf out = true →
      runCommand true c (.execOK out) = (out, some .invalidCommand)) ∧
    (∀ c out, unknownCommandMarker.isPrefixOf out = false →
      runCommand true c (.execOK out) = (trimSuffixNL out, none)) := by
  refine ⟨fun c ex => rfl, fun c out h => ?_, fun c out h => ?_⟩
  · rw [runCommand, if_pos rfl]
    simp only [h, if_true]
  · rw [runCommand, if_pos rfl]
    simp only [h, Bool.false_eq_true, if_false]

/-- C5 witness: the three branches at concrete inputs. -/
theorem runCommand_error_spec_witness :
    runCommand false "status" (.execOK "ok".toList) =
      ([], some .serverDown) ∧
    runCommand true "foo" (.execOK "Unknown command: foo".toList) =
      ("Unknown command: foo".toList, some .invalidCommand) ∧
    runCommand true "status" (.execOK "online\n".toList) =
      ("online".toList, none) := by
  refine ⟨runCommand_error_spec.1 "status" _,
    runCommand_error_spec.2.1 "foo" _ (by decide), ?_⟩
  rw [runCommand_error_spec.2.2 "status" "online\n".toList (by decide)]
  decide

/-- C8: an index string that `strconv.Atoi` rejects is fatal in both
`NewPlayer` and `NewAlliance`: the call stops the server and exits the
process (`fatalExit`) instead of returning normally or skipping the
entry — for every store state, data slice, and refetch outcome. -/
theorem bad_index_fatal (st : GameState) (index : String) (d : List String)
    (fetch : FetchResult) (h : atoi index = none) :
    newPlayer st index d fetch = .fatalExit ∧
    newAlliance st index d fetch = .fatalExit := by
  constructor
  · rw [newPlayer, h]
    rfl
  · rw [newAlliance.eq_def, h]
    rfl

/-- C8 witness: the non-integer index `"abc"` is fatal on the empty store. -/
theorem bad_index_fatal_witness :
    newPlayer emptyState "abc" [] .rconError = .fatalExit ∧
    newAlliance emptyState "abc" [] .rconError = .fatalExit :=
  bad_index_fatal emptyState "abc" [] .rconError (by decide)

end AvorionControl

namespace AvorionControl

/-- C7 counterexample: a message of exactly 2 000 characters is *not* sent
unchanged — the guard in `SendChat`/`SendLog` is `len(input.Msg) >= 2000`,
so the boundary message is truncated, refuting the claim that messages of
2 000 characters or fewer pass through untouched. -/
theorem sendChat_exactly_2000_truncated :
    sendChat true (List.replicate 2000 'a') ≠
      some (List.replicate 2000 'a') := by
  have h0 : sendChat true (List.replicate 2000 'a') =
      some (sendChatMsg (List.replicate 2000 'a')) := rfl
  rw [h0]
  intro h
  have h2 := Option.some.inj h
  have hc : 2000 ≤ (List.replicate 2000 'a').length := by
    rw [List.length_replicate]
  rw [sendChatMsg, if_pos hc] at h2
  have hlen := congrArg List.length h2
  have hs : truncatedSuffix.length = 14 := rfl
  rw [List.length_append, List.length_take, List.length_replicate, hs] at hlen
  norm_num at hlen

/-- C7 (amended): for every message sent through a non-nil pipe, a message of
2 000 characters **or more** is truncated to its first 1 900 characters and
suffixed with `...(truncated)`, and a message of 1 999 characters or fewer is
sent unchanged — identically in `SendChat` and `SendLog`. -/
theorem send_truncation_amended (msg : List Char) :
    (2000 ≤ msg.length →
      sendChat true msg = some (msg.take 1900 ++ truncatedSuffix) ∧
      sendLog true msg = some (msg.take 1900 ++ truncatedSuffix)) ∧
    (msg.length ≤ 1999 →
      sendChat true msg = some msg ∧ sendLog true msg = some msg) := by
  constructor
  · intro h
    constructor
    · show some (sendChatMsg msg) = _
      rw [sendChatMsg, if_pos h]
    · show some (sendLogMsg msg) = _
      rw [sendLogMsg, if_pos h]
  · intro h
    have h2 : ¬ 2000 ≤ msg.length := by omega
    constructor
    · show some (sendChatMsg msg) = _
      rw [sendChatMsg, if_neg h2]
    · show some (sendLogMsg msg) = _
      rw [sendLogMsg, if_neg h2]

/-- C7 witness: the amended claim at a 2 000-character message and at a short
message. -/
theorem send_truncation_amended_witness :
    sendChat true (List.replicate 2000 'b') =
      some ((List.replicate 2000 'b').take 1900 ++ truncatedSuffix) ∧
    sendChat true ['h', 'i'] = some ['h', 'i'] :=
  ⟨((send_truncation_amended (List.replicate 2000 'b')).1
      (by rw [List.length_replicate])).1,
   ((send_truncation_amended ['h', 'i']).2 (by decide)).1⟩

/-- C6 counterexample: during the pre-init phase a non-sentinel line is *not*
emitted as an INIT-level log event.  With the registry holding the default
`EventNone` (pattern `.*`, registered last), the line `hello` is dispatched
to `EventNone`'s handler — which logs it as plain server output — and no
INIT-level emission occurs. -/
theorem preInit_no_init_log_counterexample :
    superviseLine [eventNone] false "hello" =
      ([.dispatch "EventNone"], false) ∧
    emitsInitLog (superviseLine [eventNone] false "hello").1 = false := by
  decide

/-- C6 (amended): in the pre-init phase, the exact line
`Server startup complete.` emits the INIT completion notice and closes the
`ready` channel; the exact line `Server startup FAILED.` logs the failure and
sets the crashed flag while scanning continues; every other line is passed
through the event registry and the first matching event's handler is
dispatched (with no INIT-level emission of its own; the `EventNone` fallback
logs it as plain output), or dropped if nothing matches; and over any whole
run the `ready` channel is closed at most once. -/
theorem superviseOut_preInit_amended :
    (∀ reg, superviseLine reg false "Server startup complete." =
      ([.logInit "Avorion server initialization completed", .closeReady],
        true)) ∧
    (∀ reg, superviseLine reg false "Server startup FAILED." =
      ([.logError "Server startup FAILED.", .setCrashed], false)) ∧
    (∀ reg out e, out ≠ "Server startup complete." →
      out ≠ "Server startup FAILED." → getFromString reg out = some e →
      superviseLine reg false out = ([.dispatch e.name], false) ∧
      emitsInitLog (superviseLine reg false out).1 = false) ∧
    (∀ reg out, out ≠ "Server startup complete." →
      out ≠ "Server startup FAILED." → getFromString reg out = none →
      superviseLine reg false out = ([], false)) ∧
    (∀ reg ready lines,
      closeReadyCount (superviseRun reg ready lines) ≤ 1) := by
  refine ⟨fun reg => ?_, fun reg => ?_, fun reg out e h1 h2 h3 => ?_,
    fun reg out h1 h2 h3 => ?_, fun reg ready lines =>
      superviseRun_closeReady_le_one reg lines ready⟩
  · rw [superviseLine, if_neg (by simp), if_pos rfl]
  · rw [superviseLine, if_neg (by simp), if_neg (by simp), if_pos rfl]
  · have hline : superviseLine reg false out = ([.dispatch e.name], false) := by
      rw [superviseLine, if_neg (by simp), if_neg h1, if_neg h2, h3]
    exact ⟨hline, by rw [hline]; rfl⟩
  · rw [superviseLine, if_neg (by simp), if_neg h1, if_neg h2, h3]

/-- C6 witness: the dispatch conjunct at the concrete registry
`[eventNone]` and the line `world`. -/
theorem superviseOut_preInit_amended_witness :
    superviseLine [eventNone] false "world" =
      ([.dispatch "EventNone"], false) :=
  (superviseOut_preInit_amended.2.2.1 [eventNone] "world" eventNone
    (by decide) (by decide) rfl).1

end AvorionControl

namespace AvorionControl

set_option maxRecDepth 40000 in
/-- Helper for the overflow counterexample: all 1001 jump records of
`overflowSector` belong to faction `7`, so they all survive the
`loadSectors` filter. -/
theorem overflow_jumps_length :
    (sectorJumpsFor overflowAlliance.index overflowState.sectors).length =
      1001 := by
  have h0 : sectorJumpsFor overflowAlliance.index overflowState.sectors =
      overflowSector.jumphistory.filterMap
        (fun j => if fidString j.fid == overflowAlliance.index then
          some { x := j.x, y := j.y, name := j.name, time := j.time }
          else none) := by
    simp only [sectorJumpsFor,
      show overflowState.sectors = [overflowSector] from rfl,
      List.flatMap_cons, List.flatMap_nil, List.append_nil]
  rw [h0, length_filterMap_of_isSome]
  · show ((List.range 1001).map overflowJump).length = 1001
    rw [List.length_map, List.length_range]
  · intro j hj
    rw [show overflowSector.jumphistory = (List.range 1001).map overflowJump
      from rfl] at hj
    obtain ⟨i, hi, rfl⟩ := List.mem_map.mp hj
    have hfid : (fidString (overflowJump i).fid == overflowAlliance.index) =
        true := by
      rw [show (overflowJump i).fid = 7 from rfl]
      decide
    simp only [hfid, if_true, Option.isSome_some]

end AvorionControl

namespace AvorionControl

set_option maxRecDepth 40000 in
/-- C4 counterexample: the bound `|jumphistory| ≤ 1000` does *not* hold at
every point in time.  `loadSectors` appends the sector jump histories to the
factions' histories without any truncation, so immediately after it runs on a
store whose sole sector holds 1001 records of alliance `7`, that alliance's
jump history has 1001 > 1000 entries. -/
theorem loadSectors_unbounded_counterexample :
    allianceHistLengths (loadSectors overflowState) = [1001] ∧
    1000 < 1001 := by
  refine ⟨?_, by norm_num⟩
  have h1 : allianceHistLengths (loadSectors overflowState) =
      [(sortByTime (overflowAlliance.jumphistory ++
        sectorJumpsFor overflowAlliance.index overflowState.sectors)).length] :=
    rfl
  rw [h1, length_sortByTime,
    show overflowAlliance.jumphistory = [] from rfl,
    List.nil_append, overflow_jumps_length]

/-- C4 (amended): every `AddJump` call preserves the 1000-entry bound and,
when the history is full, evicts exactly the front (oldest) entry before the
new record lands at the back; `loadSectors`, however, appends the sector
histories at startup without truncation, so the bound can be exceeded right
after loading. -/
theorem addJump_bounded_fifo (hist : List ShipCoordData) (sc : ShipCoordData)
    (now : Nat) (h : hist.length ≤ 1000) :
    (addJump hist sc now).length ≤ 1000 ∧
    (hist.length = 1000 →
      addJump hist sc now = hist.drop 1 ++ [{ sc with time := now }]) := by
  have hlen : (hist ++ [{ sc with time := now }]).length =
      hist.length + 1 := by
    rw [List.length_append]
    rfl
  constructor
  · by_cases hc : 1000 < (hist ++ [{ sc with time := now }]).length
    · simp only [addJump]
      rw [if_pos hc, List.length_drop, hlen]
      omega
    · simp only [addJump]
      rw [if_neg hc]
      omega
  · intro h1000
    have hc : 1000 < (hist ++ [{ sc with time := now }]).length := by omega
    simp only [addJump]
    rw [if_pos hc,
      List.drop_append_of_le_length (by omega : 1 ≤ hist.length)]

/-- C4 witness: adding to a full 1000-entry history keeps the bound and drops
the front entry. -/
theorem addJump_bounded_fifo_witness :
    (addJump fullHist freshJump 5).length ≤ 1000 ∧
    (fullHist.length = 1000 →
      addJump fullHist freshJump 5 =
        fullHist.drop 1 ++ [{ freshJump with time := 5 }]) :=
  addJump_bounded_fifo fullHist freshJump 5
    (by unfold fullHist; rw [List.length_replicate])

end AvorionControl
